import Mathlib

/-!
A shallow embedding of `src/App.js` of the myLocationBase application:
the dark-mode preference path (`loadDarkMode`, `onToggleSwitch` over
AsyncStorage + JSON), the SQLite-backed record store (`createTable`,
`saveLocation`, `loadLocations` over the `locations` table), and the
capture workflow `getLocation`.

Modelling conventions:
- JavaScript numbers that only ever get stored and compared are `Rat`.
- The durable SQLite database is a `DB` record: the list of created table
  names, the AUTOINCREMENT counter of the `locations` table, and its rows
  in rowid (insertion) order, which is the order `SELECT *` yields them.
- Each fallible platform step (storage transaction, location fetch,
  permission prompt) is driven by an explicit environment value, so a run
  of the workflow is a pure function of the environment and the state.
- A transaction that fails is rolled back: the operation returns the
  caller's database unchanged next to the error.
- `async` JavaScript functions that terminate by `return` with no value or
  by falling off the end resolve to `undefined`; the model makes that
  resolved value explicit where a claim is about it.
-/

namespace MyLocationBase

/-- The fragment of JavaScript JSON values this application can observe:
`JSON.stringify` is only ever applied to booleans, but a corrupted storage
entry may parse to a number or `null` as well. -/
inductive JValue where
  | jbool (b : Bool)
  | jnum (n : Nat)
  | jnull
deriving DecidableEq

/-- JavaScript truthiness on the modelled values, as used by `!isSwitchOn`
and by the theme effect. -/
def jsTruthy : JValue → Bool
  | JValue.jbool b => b
  | JValue.jnum n => n ≠ 0
  | JValue.jnull => false

/-- Model of the platform builtin `JSON.stringify` on the values the
application writes. -/
def jsonStringify : JValue → String
  | JValue.jbool true => "true"
  | JValue.jbool false => "false"
  | JValue.jnum n => toString n
  | JValue.jnull => "null"

/-- Model of the platform builtin `JSON.parse` on the modelled fragment:
`none` is a thrown `SyntaxError`. -/
def jsonParse (s : String) : Option JValue :=
  if s = "true" then some (JValue.jbool true)
  else if s = "false" then some (JValue.jbool false)
  else if s = "null" then some JValue.jnull
  else
    match s.toNat? with
    | some n => some (JValue.jnum n)
    | none => none

/-- The preference-path slice of the component state: the `isSwitchOn`
React state (initially `false`) and the AsyncStorage entry under the key
`darkMode` (`none` when absent). -/
structure PrefState where
  isSwitchOn : JValue
  storage : Option String
deriving DecidableEq

/-- Model of `loadDarkMode` from App.js: reads the `darkMode` entry; if present it
parses it and stores the parsed value in `isSwitchOn`; a missing entry is
skipped; a read or parse failure is caught and only logged, so the
function never throws and the state is left unchanged. `readOk = false`
models `AsyncStorage.getItem` rejecting. -/
def loadDarkMode (readOk : Bool) (s : PrefState) : PrefState :=
  if readOk then
    match s.storage with
    | some str =>
      match jsonParse str with
      | some v => { s with isSwitchOn := v }
      | none => s
    | none => s
  else s

/-- Model of `onToggleSwitch` from App.js: computes `newValue = !isSwitchOn`, sets
the React state to it at once, then tries to persist it; a write failure
(`writeOk = false`, `AsyncStorage.setItem` rejecting) is caught and only
logged, leaving the stored entry unchanged while the in-memory state
keeps `newValue`. -/
def onToggleSwitch (writeOk : Bool) (s : PrefState) : PrefState :=
  let newValue := JValue.jbool (!(jsTruthy s.isSwitchOn))
  let s1 := { s with isSwitchOn := newValue }
  if writeOk then { s1 with storage := some (jsonStringify newValue) } else s1

/-- A row of the `locations` table: `id INTEGER PRIMARY KEY AUTOINCREMENT,
latitude REAL, longitude REAL`. -/
structure LocationRecord where
  id : Nat
  latitude : Rat
  longitude : Rat
deriving DecidableEq

/-- The SQLite database `locations.db`: the created table names, the next
AUTOINCREMENT id of the `locations` table, and its rows in rowid order. -/
structure DB where
  tables : List String
  nextId : Nat
  rows : List LocationRecord
deriving DecidableEq

/-- A freshly opened `locations.db` before any schema call. -/
def openDatabase : DB :=
  { tables := [], nextId := 1, rows := [] }

/-- A storage-layer failure (`StorageError` in the specification). -/
inductive StorageError where
  | failed
deriving DecidableEq

/-- The SQL text executed by `loadLocations`. -/
def loadLocationsSQL : String := "SELECT * FROM locations;"

/-- Whether the first list of characters starts with the second. -/
def charsMatchAt : List Char → List Char → Bool
  | _, [] => true
  | [], _ :: _ => false
  | c :: cs, d :: ds => if c = d then charsMatchAt cs ds else false

/-- Whether the second list of characters occurs inside the first. -/
def charsContain : List Char → List Char → Bool
  | [], needle => needle.isEmpty
  | c :: cs, needle =>
    if charsMatchAt (c :: cs) needle then true else charsContain cs needle

/-- Whether a SQL query text carries an explicit `ORDER BY` clause. -/
def sqlHasOrderBy (q : String) : Bool :=
  charsContain q.data ("ORDER BY".data)

/-- Model of `db.execSync` of `CREATE TABLE IF NOT EXISTS locations (...)`: creates
the table when absent, otherwise changes nothing; existing rows and the
AUTOINCREMENT counter are untouched either way. -/
def execCreateTable (db : DB) : DB :=
  if "locations" ∈ db.tables then db
  else { db with tables := db.tables ++ ["locations"] }

/-- Model of `createTable` from App.js: runs the `CREATE TABLE IF NOT EXISTS`
statement inside `withTransactionAsync`; a storage failure (`ok = false`)
is rolled back, logged and rethrown. -/
def createTable (ok : Bool) (db : DB) : Except StorageError Unit × DB :=
  if ok then (Except.ok (), execCreateTable db)
  else (Except.error StorageError.failed, db)

/-- Iterated startup schema calls: `createTable` invoked `n` times in sequence on a healthy storage
layer, stopping at the first error as the startup code would. -/
def createTableN : Nat → DB → Except StorageError Unit × DB
  | 0, db => (Except.ok (), db)
  | n + 1, db =>
    match createTable true db with
    | (Except.ok _, db1) => createTableN n db1
    | (Except.error e, db1) => (Except.error e, db1)

/-- Model of
`db.runSync('INSERT INTO locations (latitude, longitude) values (?, ?)')`:
appends a row carrying the next AUTOINCREMENT id and returns that id as
`lastInsertRowId`. -/
def runSyncInsert (lat lon : Rat) (db : DB) : Nat × DB :=
  (db.nextId,
    { db with
        rows := db.rows ++ [{ id := db.nextId, latitude := lat, longitude := lon }],
        nextId := db.nextId + 1 })

/-- Values an async JavaScript function can resolve to here: `undefined`
or a row id. -/
inductive JSResult where
  | undef
  | num (n : Nat)
deriving DecidableEq

/-- Model of `saveLocation` from App.js: one scoped transaction around a
single insert; on success the generated id is read back into the local
`insertedId` and logged, and the async function resolves to `undefined`
(it has no `return` statement); on failure (`ok = false`) the transaction
is rolled back — the database is returned unchanged — and the error is
logged and rethrown. -/
def saveLocation (lat lon : Rat) (ok : Bool) (db : DB) :
    Except StorageError JSResult × DB :=
  if ok then
    let (insertedId, db1) := runSyncInsert lat lon db
    let _ := insertedId
    (Except.ok JSResult.undef, db1)
  else (Except.error StorageError.failed, db)

/-- Model of `db.getAllSync('SELECT * FROM locations;')` inside `loadLocations`'s
transaction: yields every row, in rowid order, with no `ORDER BY` in the
query; on failure (`ok = false`) the error propagates and the read-only
transaction leaves the database unchanged. The caller publishes the rows
with `setLocations` only after the transaction succeeded. -/
def loadLocations (ok : Bool) (db : DB) :
    Except StorageError (List LocationRecord) × DB :=
  if ok then (Except.ok db.rows, db)
  else (Except.error StorageError.failed, db)

/-- The permission status returned by
`Location.requestForegroundPermissionsAsync`; the code only tests
`status !== 'granted'`. -/
inductive PermStatus where
  | granted
  | denied
  | undetermined
deriving DecidableEq

/-- The environment of one `getLocation` invocation: the permission
prompt's outcome, the result of `Location.getCurrentPositionAsync`
(coordinates or a thrown location error), and whether the insert and the
reload transactions succeed. -/
structure CaptureEnv where
  permStatus : PermStatus
  locationResult : Except String (Rat × Rat)
  insertOk : Bool
  reloadOk : Bool

/-- The capture-path slice of the component state: the `isLoading` flag,
the published `locations` list (`null` before the first load), the
database, and the alerts raised so far (by title). -/
structure AppState where
  isLoading : Bool
  locations : Option (List LocationRecord)
  db : DB
  alerts : List String
deriving DecidableEq

/-- Which exit path a `getLocation` invocation took. -/
inductive CaptureOutcome where
  | success
  | permissionDenied
  | locationFailed
  | insertFailed
  | reloadFailed
deriving DecidableEq

/-- Model of `getLocation` from App.js: sets `isLoading` to `true`, requests
permission; a non-granted status raises the permission alert and returns;
otherwise it fetches the position, saves it, and reloads the list into
`locations`; any thrown error (location fetch, insert, reload) is caught
by the single `catch`, which raises the `Erro` alert; the `finally` block
always resets `isLoading` to `false`, so no rejection escapes the
function. The returned `CaptureOutcome` records the path taken. -/
def getLocation (env : CaptureEnv) (s : AppState) : AppState × CaptureOutcome :=
  let s1 := { s with isLoading := true }
  if env.permStatus = PermStatus.granted then
    match env.locationResult with
    | Except.error _ =>
      ({ s1 with alerts := s1.alerts ++ ["Erro"], isLoading := false },
        CaptureOutcome.locationFailed)
    | Except.ok coords =>
      match saveLocation coords.1 coords.2 env.insertOk s1.db with
      | (Except.error _, db1) =>
        ({ s1 with db := db1, alerts := s1.alerts ++ ["Erro"], isLoading := false },
          CaptureOutcome.insertFailed)
      | (Except.ok _, db1) =>
        match loadLocations env.reloadOk db1 with
        | (Except.error _, db2) =>
          ({ s1 with db := db2, alerts := s1.alerts ++ ["Erro"], isLoading := false },
            CaptureOutcome.reloadFailed)
        | (Except.ok rows, db2) =>
          ({ s1 with db := db2, locations := some rows, isLoading := false },
            CaptureOutcome.success)
  else
    ({ s1 with alerts := s1.alerts ++ ["Permissão de Localização"], isLoading := false },
      CaptureOutcome.permissionDenied)

/-! Concrete fixtures used to evaluate the model on explicit inputs. -/

/-- A database right after the startup schema call, still empty. -/
def tableOnlyDB : DB :=
  { tables := ["locations"], nextId := 1, rows := [] }

/-- A component state at rest: not loading, an empty published list, the
fresh database, no alerts so far. -/
def sBase : AppState :=
  { isLoading := false, locations := some [], db := tableOnlyDB, alerts := [] }

/-- The same state while a capture is still in flight: `isLoading` is
`true`. -/
def sBusy : AppState :=
  { sBase with isLoading := true }

/-- An environment in which the permission prompt is denied. -/
def envDenied : CaptureEnv :=
  { permStatus := PermStatus.denied
    locationResult := Except.error "unused"
    insertOk := true
    reloadOk := true }

/-- An environment in which every step succeeds, the provider reporting
the position (10, 20). -/
def envAllOk : CaptureEnv :=
  { permStatus := PermStatus.granted
    locationResult := Except.ok (10, 20)
    insertOk := true
    reloadOk := true }

/-- An environment in which the insert commits but the subsequent reload
transaction fails. -/
def envReloadFail : CaptureEnv :=
  { permStatus := PermStatus.granted
    locationResult := Except.ok (1, 2)
    insertOk := true
    reloadOk := false }

/-- The database obtained from a fresh one by creating the schema and
then inserting (37.422, -122.084) followed by (40, -73). -/
def twoInsertDB : DB :=
  (runSyncInsert 40 (-73) (runSyncInsert 37.422 (-122.084) (execCreateTable openDatabase)).2).2

/-! Helper lemmas: how one `getLocation` invocation evaluates on each of
the five control paths of the source. -/

theorem getLocation_denied_eq (env : CaptureEnv) (s : AppState)
    (hp : env.permStatus ≠ PermStatus.granted) :
    getLocation env s =
      ({ s with alerts := s.alerts ++ ["Permissão de Localização"], isLoading := false },
        CaptureOutcome.permissionDenied) := by
  simp [getLocation, hp]

theorem getLocation_locFail_eq (env : CaptureEnv) (s : AppState) (msg : String)
    (hp : env.permStatus = PermStatus.granted)
    (hl : env.locationResult = Except.error msg) :
    getLocation env s =
      ({ s with alerts := s.alerts ++ ["Erro"], isLoading := false },
        CaptureOutcome.locationFailed) := by
  simp [getLocation, hp, hl]

theorem getLocation_insertFail_eq (env : CaptureEnv) (s : AppState) (la lo : Rat)
    (hp : env.permStatus = PermStatus.granted)
    (hl : env.locationResult = Except.ok (la, lo))
    (hi : env.insertOk = false) :
    getLocation env s =
      ({ s with alerts := s.alerts ++ ["Erro"], isLoading := false },
        CaptureOutcome.insertFailed) := by
  simp [getLocation, hp, hl, hi, saveLocation]

theorem getLocation_reloadFail_eq (env : CaptureEnv) (s : AppState) (la lo : Rat)
    (hp : env.permStatus = PermStatus.granted)
    (hl : env.locationResult = Except.ok (la, lo))
    (hi : env.insertOk = true)
    (hr : env.reloadOk = false) :
    getLocation env s =
      ({ s with
          db := { s.db with
                    rows := s.db.rows ++
                      [{ id := s.db.nextId, latitude := la, longitude := lo }],
                    nextId := s.db.nextId + 1 },
          alerts := s.alerts ++ ["Erro"],
          isLoading := false },
        CaptureOutcome.reloadFailed) := by
  simp [getLocation, hp, hl, hi, hr, saveLocation, runSyncInsert, loadLocations]

theorem getLocation_success_eq (env : CaptureEnv) (s : AppState) (la lo : Rat)
    (hp : env.permStatus = PermStatus.granted)
    (hl : env.locationResult = Except.ok (la, lo))
    (hi : env.insertOk = true)
    (hr : env.reloadOk = true) :
    getLocation env s =
      ({ s with
          db := { s.db with
                    rows := s.db.rows ++
                      [{ id := s.db.nextId, latitude := la, longitude := lo }],
                    nextId := s.db.nextId + 1 },
          locations := some (s.db.rows ++
            [{ id := s.db.nextId, latitude := la, longitude := lo }]),
          isLoading := false },
        CaptureOutcome.success) := by
  simp [getLocation, hp, hl, hi, hr, saveLocation, runSyncInsert, loadLocations]

/-- C1: for every successful capture — permission granted, position
retrieval, insert and reload all succeed — the list published by the
subsequent `loadLocations` is exactly one record longer than the store
was before the capture, and the new record's latitude and longitude are
the coordinates the location provider returned. -/
theorem capture_success_appends_one
    (env : CaptureEnv) (s : AppState) (la lo : Rat)
    (hp : env.permStatus = PermStatus.granted)
    (hl : env.locationResult = Except.ok (la, lo))
    (hi : env.insertOk = true)
    (hr : env.reloadOk = true) :
    (getLocation env s).2 = CaptureOutcome.success ∧
    (getLocation env s).1.db.rows =
      s.db.rows ++ [{ id := s.db.nextId, latitude := la, longitude := lo }] ∧
    (getLocation env s).1.locations =
      some (s.db.rows ++ [{ id := s.db.nextId, latitude := la, longitude := lo }]) ∧
    (getLocation env s).1.db.rows.length = s.db.rows.length + 1 ∧
    (getLocation env s).1.isLoading = false := by
  rw [getLocation_success_eq env s la lo hp hl hi hr]
  simp

/-- Witness for C1: a concrete all-success capture from the fixture
state, at the provider position (10, 20). -/
theorem capture_success_appends_one_witness :
    envAllOk.permStatus = PermStatus.granted ∧
    envAllOk.locationResult = Except.ok ((10 : Rat), (20 : Rat)) ∧
    envAllOk.insertOk = true ∧
    envAllOk.reloadOk = true ∧
    ((getLocation envAllOk sBase).2 = CaptureOutcome.success ∧
     (getLocation envAllOk sBase).1.db.rows =
       sBase.db.rows ++ [{ id := sBase.db.nextId, latitude := 10, longitude := 20 }] ∧
     (getLocation envAllOk sBase).1.locations =
       some (sBase.db.rows ++ [{ id := sBase.db.nextId, latitude := 10, longitude := 20 }]) ∧
     (getLocation envAllOk sBase).1.db.rows.length = sBase.db.rows.length + 1 ∧
     (getLocation envAllOk sBase).1.isLoading = false) :=
  ⟨rfl, rfl, rfl, rfl,
    capture_success_appends_one envAllOk sBase 10 20 rfl rfl rfl rfl⟩

/-- C2, counterexample: the read operation's ordering is not an explicit
contract — the query `loadLocations` executes is exactly
`SELECT * FROM locations;`, which carries no `ORDER BY` clause. -/
theorem loadLocations_ordering_not_explicit :
    loadLocationsSQL = "SELECT * FROM locations;" ∧
    sqlHasOrderBy loadLocationsSQL = false :=
  ⟨rfl, by decide⟩

/-- C2, amended: `loadLocations` returns all stored records in the
storage engine's rowid order, which for this append-only table is
insertion order with `id` ascending — in particular inserting
(37.422, -122.084) then (40, -73) into a fresh store yields
`[{id 1, 37.422, -122.084}, {id 2, 40, -73}]` — but the ordering is
incidental, not an explicit `ORDER BY` contract. -/
theorem loadLocations_insertion_order :
    (loadLocations true twoInsertDB).1 =
      Except.ok [{ id := 1, latitude := 37.422, longitude := -122.084 },
                 { id := 2, latitude := 40, longitude := -73 }] ∧
    twoInsertDB.rows.map LocationRecord.id = [1, 2] ∧
    (∀ db : DB, loadLocations true db = (Except.ok db.rows, db)) :=
  ⟨rfl, rfl, fun _ => rfl⟩

/-- C3, counterexample: on a concrete insert into the fresh store the
generated id is 1, yet `saveLocation` resolves to `undefined` — the id is
only captured into a local and logged, never returned to the caller. -/
theorem saveLocation_returns_undefined :
    (runSyncInsert 1 2 tableOnlyDB).1 = 1 ∧
    (saveLocation 1 2 true tableOnlyDB).1 = Except.ok JSResult.undef ∧
    JSResult.undef ≠ JSResult.num 1 :=
  ⟨rfl, rfl, by decide⟩

/-- C3, amended: `saveLocation` runs its single insert inside one scoped
transaction — on success the database gains exactly the one new row with
the next generated id, and on any failure it is rolled back unchanged, so
no partial write is observable — but the function resolves to `undefined`
instead of returning the newly assigned id. -/
theorem saveLocation_transactional :
    ∀ (la lo : Rat) (db : DB),
      saveLocation la lo true db =
        (Except.ok JSResult.undef,
          { db with
              rows := db.rows ++ [{ id := db.nextId, latitude := la, longitude := lo }],
              nextId := db.nextId + 1 }) ∧
      saveLocation la lo false db = (Except.error StorageError.failed, db) :=
  fun _ _ _ => ⟨rfl, rfl⟩

/-- C4, counterexample: a capture whose reload transaction fails after
the insert committed is a failing invocation — it raises the alert and
ends not loading — yet the record store is changed: the inserted row
stays committed, so the store is not left unchanged by every failing
capture. -/
theorem capture_reload_failure_keeps_insert :
    (getLocation envReloadFail sBase).2 = CaptureOutcome.reloadFailed ∧
    (getLocation envReloadFail sBase).1.alerts.length = sBase.alerts.length + 1 ∧
    (getLocation envReloadFail sBase).1.isLoading = false ∧
    (getLocation envReloadFail sBase).1.db.rows.length = 1 ∧
    sBase.db.rows.length = 0 ∧
    (getLocation envReloadFail sBase).1.db ≠ sBase.db :=
  ⟨rfl, rfl, rfl, rfl, rfl,
    fun hEq => absurd (congrArg (fun d => d.rows.length) hEq) (by decide)⟩

/-- C4, amended: every failing capture raises exactly one user-facing
alert, leaves the published list unchanged, and ends back at idle with
`loading = false` (the guaranteed `finally`), and no rejection escapes
`getLocation`; the record store is unchanged on the permission-denied,
location-failure and insert-failure paths, while a failure during the
reload leaves the store holding exactly the newly inserted record. -/
theorem capture_failure_cleanup (env : CaptureEnv) (s : AppState)
    (h : (getLocation env s).2 ≠ CaptureOutcome.success) :
    (getLocation env s).1.alerts.length = s.alerts.length + 1 ∧
    (getLocation env s).1.locations = s.locations ∧
    (getLocation env s).1.isLoading = false ∧
    ((getLocation env s).2 ≠ CaptureOutcome.reloadFailed →
      (getLocation env s).1.db = s.db) ∧
    (∀ la lo : Rat, env.locationResult = Except.ok (la, lo) →
      (getLocation env s).2 = CaptureOutcome.reloadFailed →
      (getLocation env s).1.db.rows =
        s.db.rows ++ [{ id := s.db.nextId, latitude := la, longitude := lo }]) := by
  by_cases hp : env.permStatus = PermStatus.granted
  · cases hl : env.locationResult with
    | error m =>
      rw [getLocation_locFail_eq env s m hp hl]
      refine ⟨by simp, rfl, rfl, fun _ => rfl, ?_⟩
      intro la lo hlo
      simp at hlo
    | ok c =>
      obtain ⟨la, lo⟩ := c
      cases hi : env.insertOk with
      | false =>
        rw [getLocation_insertFail_eq env s la lo hp hl hi]
        refine ⟨by simp, rfl, rfl, fun _ => rfl, ?_⟩
        intro la' lo' hlo hout
        simp at hout
      | true =>
        cases hr : env.reloadOk with
        | false =>
          rw [getLocation_reloadFail_eq env s la lo hp hl hi hr]
          refine ⟨by simp, rfl, rfl, fun hne => absurd rfl hne, ?_⟩
          intro la' lo' hlo _
          simp only [Except.ok.injEq, Prod.mk.injEq] at hlo
          obtain ⟨rfl, rfl⟩ := hlo
          rfl
        | true =>
          rw [getLocation_success_eq env s la lo hp hl hi hr] at h
          simp at h
  · rw [getLocation_denied_eq env s hp]
    refine ⟨by simp, rfl, rfl, fun _ => rfl, ?_⟩
    intro la lo hlo hout
    simp at hout

/-- Witness for C4: the concrete permission-denied capture from the
fixture state. -/
theorem capture_failure_cleanup_witness :
    (getLocation envDenied sBase).2 ≠ CaptureOutcome.success ∧
    ((getLocation envDenied sBase).1.alerts.length = sBase.alerts.length + 1 ∧
     (getLocation envDenied sBase).1.locations = sBase.locations ∧
     (getLocation envDenied sBase).1.isLoading = false ∧
     ((getLocation envDenied sBase).2 ≠ CaptureOutcome.reloadFailed →
       (getLocation envDenied sBase).1.db = sBase.db) ∧
     (∀ la lo : Rat, envDenied.locationResult = Except.ok (la, lo) →
       (getLocation envDenied sBase).2 = CaptureOutcome.reloadFailed →
       (getLocation envDenied sBase).1.db.rows =
         sBase.db.rows ++ [{ id := sBase.db.nextId, latitude := la, longitude := lo }])) :=
  ⟨by decide, capture_failure_cleanup envDenied sBase (by decide)⟩

/-- C5: `getLocation` carries no re-entrancy guard at all — its behavior
is entirely independent of the `isLoading` flag it would have to consult,
so a second invocation issued while the first is still in flight
(`isLoading = true`) is neither rejected nor queued: it proceeds and
performs its own insert, as the concrete in-flight run shows. -/
theorem getLocation_no_reentrancy_guard :
    (∀ (env : CaptureEnv) (s : AppState) (b : Bool),
        getLocation env { s with isLoading := b } = getLocation env s) ∧
    sBusy.isLoading = true ∧
    (getLocation envAllOk sBusy).2 = CaptureOutcome.success ∧
    (getLocation envAllOk sBusy).1.db.rows.length = sBusy.db.rows.length + 1 := by
  refine ⟨?_, rfl, rfl, rfl⟩
  intro env s b
  obtain ⟨p, lr, i, r⟩ := env
  cases p <;> cases lr <;> cases i <;> cases r <;> rfl

/-- Auxiliary for C6: once the `locations` table exists, any further
`createTable` calls are complete no-ops that report success. -/
theorem createTableN_noop (n : Nat) :
    ∀ db : DB, "locations" ∈ db.tables →
      createTableN n db = (Except.ok (), db) := by
  induction n with
  | zero => intro db _; rfl
  | succ k ih =>
    intro db h
    simp only [createTableN, createTable, execCreateTable, if_pos h, if_pos trivial]
    exact ih db h

/-- C6: `createTable` is idempotent — called `n + 2` times (any number
greater than one) on a store holding at most one `locations` table, every
call succeeds, exactly one `locations` table results, and the existing
records and the id counter are untouched. -/
theorem createTable_idempotent (n : Nat) (db : DB)
    (h : db.tables.count "locations" ≤ 1) :
    (createTableN (n + 2) db).1 = Except.ok () ∧
    ((createTableN (n + 2) db).2).tables.count "locations" = 1 ∧
    ((createTableN (n + 2) db).2).rows = db.rows ∧
    ((createTableN (n + 2) db).2).nextId = db.nextId := by
  have hmem : "locations" ∈ (execCreateTable db).tables := by
    by_cases hm : "locations" ∈ db.tables <;> simp [execCreateTable, hm]
  have hstep : createTableN (n + 2) db = createTableN (n + 1) (execCreateTable db) := by
    simp [createTableN, createTable]
  rw [hstep, createTableN_noop (n + 1) (execCreateTable db) hmem]
  refine ⟨rfl, ?_, ?_, ?_⟩
  · by_cases hm : "locations" ∈ db.tables
    · have h1 : 1 ≤ db.tables.count "locations" := List.one_le_count_iff.mpr hm
      simp only [execCreateTable, if_pos hm]
      omega
    · simp [execCreateTable, hm, List.count_append,
        List.count_eq_zero_of_not_mem hm, List.count_singleton_self]
  · by_cases hm : "locations" ∈ db.tables <;> simp [execCreateTable, hm]
  · by_cases hm : "locations" ∈ db.tables <;> simp [execCreateTable, hm]

/-- Witness for C6: two schema calls on the freshly opened database. -/
theorem createTable_idempotent_witness :
    openDatabase.tables.count "locations" ≤ 1 ∧
    ((createTableN (0 + 2) openDatabase).1 = Except.ok () ∧
     ((createTableN (0 + 2) openDatabase).2).tables.count "locations" = 1 ∧
     ((createTableN (0 + 2) openDatabase).2).rows = openDatabase.rows ∧
     ((createTableN (0 + 2) openDatabase).2).nextId = openDatabase.nextId) :=
  ⟨by decide, createTable_idempotent 0 openDatabase (by decide)⟩

/-- C7: the dark-mode preference round-trips — after a successful toggle
from light (which persists `true`), a fresh session's `loadDarkMode`
yields `true`; symmetrically a successful toggle from dark persists
`false` and a fresh load yields `false`; and a session in which the
preference was never set loads the default `false`. -/
theorem darkMode_roundtrip :
    ∀ st : Option String,
      (loadDarkMode true
        { isSwitchOn := JValue.jbool false,
          storage := (onToggleSwitch true
            { isSwitchOn := JValue.jbool false, storage := st }).storage }).isSwitchOn
        = JValue.jbool true ∧
      (loadDarkMode true
        { isSwitchOn := JValue.jbool false,
          storage := (onToggleSwitch true
            { isSwitchOn := JValue.jbool true, storage := st }).storage }).isSwitchOn
        = JValue.jbool false ∧
      (loadDarkMode true
        { isSwitchOn := JValue.jbool false, storage := none }).isSwitchOn
        = JValue.jbool false :=
  fun _ => ⟨rfl, rfl, rfl⟩

/-- C8, counterexample: when the durable write of the toggled flag fails,
the session does not fall back to the default light theme — the in-memory
switch keeps the new, unpersisted `true` while nothing was stored. -/
theorem toggle_write_failure_keeps_value :
    (onToggleSwitch false
      { isSwitchOn := JValue.jbool false, storage := none }).isSwitchOn
      = JValue.jbool true ∧
    (onToggleSwitch false
      { isSwitchOn := JValue.jbool false, storage := none }).storage = none ∧
    JValue.jbool true ≠ JValue.jbool false :=
  ⟨rfl, rfl, by decide⟩

/-- C8, amended: a failed preference write is non-fatal — it is caught
and only logged, the toggle still returns normally with the stored entry
untouched — but the current session keeps the new, unpersisted value;
only a fresh session that finds nothing stored falls back to the default
light theme (`false`). -/
theorem toggle_write_failure_nonfatal :
    ∀ s : PrefState,
      (onToggleSwitch false s).storage = s.storage ∧
      (onToggleSwitch false s).isSwitchOn = JValue.jbool (!(jsTruthy s.isSwitchOn)) ∧
      (loadDarkMode true
        { isSwitchOn := JValue.jbool false, storage := none }).isSwitchOn
        = JValue.jbool false :=
  fun _ => ⟨rfl, rfl, rfl⟩

/-- C9: a capture that fails at the permission, location, or insert step
leaves the in-memory displayed snapshot untouched — `setLocations` is
never reached on those paths — and the store as well; only the success
path replaces the published list. -/
theorem capture_failure_preserves_display (env : CaptureEnv) (s : AppState)
    (h : (getLocation env s).2 = CaptureOutcome.permissionDenied ∨
         (getLocation env s).2 = CaptureOutcome.locationFailed ∨
         (getLocation env s).2 = CaptureOutcome.insertFailed) :
    (getLocation env s).1.locations = s.locations ∧
    (getLocation env s).1.db = s.db := by
  by_cases hp : env.permStatus = PermStatus.granted
  · cases hl : env.locationResult with
    | error m =>
      rw [getLocation_locFail_eq env s m hp hl]
      exact ⟨rfl, rfl⟩
    | ok c =>
      obtain ⟨la, lo⟩ := c
      cases hi : env.insertOk with
      | false =>
        rw [getLocation_insertFail_eq env s la lo hp hl hi]
        exact ⟨rfl, rfl⟩
      | true =>
        cases hr : env.reloadOk with
        | false =>
          rw [getLocation_reloadFail_eq env s la lo hp hl hi hr] at h
          simp at h
        | true =>
          rw [getLocation_success_eq env s la lo hp hl hi hr] at h
          simp at h
  · rw [getLocation_denied_eq env s hp]
    exact ⟨rfl, rfl⟩

/-- Witness for C9: the concrete permission-denied capture from the
fixture state leaves the published list and the store untouched. -/
theorem capture_failure_preserves_display_witness :
    ((getLocation envDenied sBase).2 = CaptureOutcome.permissionDenied ∨
     (getLocation envDenied sBase).2 = CaptureOutcome.locationFailed ∨
     (getLocation envDenied sBase).2 = CaptureOutcome.insertFailed) ∧
    ((getLocation envDenied sBase).1.locations = sBase.locations ∧
     (getLocation envDenied sBase).1.db = sBase.db) :=
  ⟨Or.inl (by decide),
    capture_failure_preserves_display envDenied sBase (Or.inl (by decide))⟩

/-- C10: when the stored darkMode entry is absent, or fails to parse as
JSON, `loadDarkMode` never throws — the model is total because the
source catches and logs the error — and the dark-mode flag remains at
its default `false`. -/
theorem loadDarkMode_defaults_on_bad_storage (s : PrefState)
    (hflag : s.isSwitchOn = JValue.jbool false)
    (hbad : s.storage = none ∨ ∃ str, s.storage = some str ∧ jsonParse str = none) :
    (loadDarkMode true s).isSwitchOn = JValue.jbool false := by
  rcases hbad with hnone | ⟨str, hsome, hparse⟩
  · simp [loadDarkMode, hnone, hflag]
  · simp [loadDarkMode, hsome, hparse, hflag]

/-- Witness for C10: a startup with no stored darkMode entry loads the
default `false`. -/
theorem loadDarkMode_defaults_on_bad_storage_witness :
    ({ isSwitchOn := JValue.jbool false, storage := none } : PrefState).isSwitchOn
      = JValue.jbool false ∧
    (({ isSwitchOn := JValue.jbool false, storage := none } : PrefState).storage = none ∨
      ∃ str, ({ isSwitchOn := JValue.jbool false, storage := none } : PrefState).storage
          = some str ∧ jsonParse str = none) ∧
    (loadDarkMode true
      { isSwitchOn := JValue.jbool false, storage := none }).isSwitchOn
      = JValue.jbool false :=
  ⟨rfl, Or.inl rfl,
    loadDarkMode_defaults_on_bad_storage
      { isSwitchOn := JValue.jbool false, storage := none } rfl (Or.inl rfl)⟩

end MyLocationBase
